import Mathlib

/-!
Verification development for the EcoChain sustainability-tracker backend.

The definitions below are a shallow embedding of the Python sources:

* `backend/agents/reasoner_agent.py` — the scoring engine
  (`calculate_carbon_credits`).
* `backend/agents/minting_agent.py` — the mint orchestrator
  (`handle_minting_request`).
* `backend/api/uploads.py` — the session store
  (`save_upload_sessions` / `load_upload_sessions`), the content-store
  fallback inside `upload_file`, and the `GET /upload/{id}/cid` endpoint.

Python floats are modelled as exact rationals (`ℚ`); Python's `round`
(banker's rounding) and `int()` (truncation toward zero) are modelled
explicitly.  The SHA-256 hash used by the content-store fallback is
implemented in full over byte lists.
-/

namespace EcoChain

/-! ## Numeric helpers: Python `round` and `int` over ℚ -/

/-- Round a rational to the nearest integer, ties to even: the semantics of
Python's builtin `round` (banker's rounding) on exact values. -/
def roundHalfEven (q : ℚ) : ℤ :=
  let f : ℤ := ⌊q⌋
  let r : ℚ := q - f
  if r < 1/2 then f
  else if 1/2 < r then f + 1
  else if f % 2 = 0 then f else f + 1

/-- Python's `round(q, ndigits)`: round to `ndigits` decimal places,
ties to even. -/
def pyRound (q : ℚ) (ndigits : ℕ) : ℚ :=
  (roundHalfEven (q * 10 ^ ndigits) : ℚ) / 10 ^ ndigits

/-- Python's `int()` on a rational: truncation toward zero. -/
def pyInt (q : ℚ) : ℤ :=
  if 0 ≤ q then ⌊q⌋ else ⌈q⌉

/-! ## Scoring engine — `reasoner_agent.calculate_carbon_credits`

Each definition mirrors one line (or guarded block) of the Python source.
The human-readable `reasoning` trace is not modelled; no claim refers
to it. -/

/-- Line `if carbon_footprint > 0: carbon_credits = min(carbon_footprint * 0.1, 100)`;
when the guard fails nothing is added to `base_credits`. -/
def carbonCreditsTerm (carbon_footprint : ℚ) : ℚ :=
  if 0 < carbon_footprint then min (carbon_footprint * (1/10)) 100 else 0

/-- Line `if renewable_energy_percentage >= 50: energy_bonus = min(energy_consumption * 0.01, 50)`. -/
def energyBonusTerm (energy_consumption renewable_energy_percentage : ℚ) : ℚ :=
  if 50 ≤ renewable_energy_percentage then min (energy_consumption * (1/100)) 50 else 0

/-- Line `if waste_reduction > 0: waste_bonus = min(waste_reduction * 2, 30)`. -/
def wasteBonusTerm (waste_reduction : ℚ) : ℚ :=
  if 0 < waste_reduction then min (waste_reduction * 2) 30 else 0

/-- The accumulated `base_credits` after the three guarded additions. -/
def base_credits (carbon_footprint energy_consumption waste_reduction
    renewable_energy_percentage : ℚ) : ℚ :=
  carbonCreditsTerm carbon_footprint
    + energyBonusTerm energy_consumption renewable_energy_percentage
    + wasteBonusTerm waste_reduction

/-- The `type_multipliers` dictionary together with `.get(document_type, 1.0)`. -/
def type_multiplier (document_type : String) : ℚ :=
  if document_type = "sustainability_document" then 1
  else if document_type = "carbon_footprint" then 6/5
  else if document_type = "certification" then 3/2
  else if document_type = "proof_of_impact" then 2
  else 1

/-- Line `final_credits = base_credits * multiplier`. -/
def final_credits (carbon_footprint energy_consumption waste_reduction
    renewable_energy_percentage : ℚ) (document_type : String) : ℚ :=
  base_credits carbon_footprint energy_consumption waste_reduction
      renewable_energy_percentage
    * type_multiplier document_type

/-- Line `impact_score = min((final_credits / 2) * 10, 100)` — the local
variable before the 1-decimal output rounding. -/
def impact_score_raw (carbon_footprint energy_consumption waste_reduction
    renewable_energy_percentage : ℚ) (document_type : String) : ℚ :=
  min ((final_credits carbon_footprint energy_consumption waste_reduction
      renewable_energy_percentage document_type / 2) * 10) 100

/-- The dictionary returned by `calculate_carbon_credits` (minus the
`reasoning` string). -/
structure CreditResult where
  should_mint : Bool
  token_amount : ℚ
  impact_score : ℚ
  deriving DecidableEq

/-- `reasoner_agent.calculate_carbon_credits`: `should_mint = final_credits >= 10`,
`token_amount = round(final_credits, 2)`, `impact_score = round(impact_score, 1)`. -/
def calculate_carbon_credits (carbon_footprint energy_consumption waste_reduction
    renewable_energy_percentage : ℚ) (document_type : String) : CreditResult :=
  let fc := final_credits carbon_footprint energy_consumption waste_reduction
      renewable_energy_percentage document_type
  { should_mint := decide (10 ≤ fc)
    token_amount := pyRound fc 2
    impact_score := pyRound (impact_score_raw carbon_footprint energy_consumption
        waste_reduction renewable_energy_percentage document_type) 1 }

/-! Spec-side scoring formulas, written from the claim's words (no
positivity guards), for comparison with the source embedding above. -/

/-- Claim formula `carbon_credits = min(carbon_footprint * 0.1, 100)`. -/
def specCarbonCredits (carbon_footprint : ℚ) : ℚ :=
  min (carbon_footprint * (1/10)) 100

/-- Claim formula `energy_bonus = renewable_pct >= 50 ? min(energy_consumption * 0.01, 50) : 0`. -/
def specEnergyBonus (energy_consumption renewable_pct : ℚ) : ℚ :=
  if 50 ≤ renewable_pct then min (energy_consumption * (1/100)) 50 else 0

/-- Claim formula `waste_bonus = min(waste_reduction_pct * 2, 30)`. -/
def specWasteBonus (waste_reduction_pct : ℚ) : ℚ :=
  min (waste_reduction_pct * 2) 30

/-- Claim multiplier table: 1.0 / 1.2 / 1.5 / 2.0 for the four known
categories, 1.0 for any unrecognized category. -/
def specMultiplier (category : String) : ℚ :=
  if category = "sustainability_document" then 1
  else if category = "carbon_footprint" then 6/5
  else if category = "certification" then 3/2
  else if category = "proof_of_impact" then 2
  else 1

/-- Claim formula for `final_credits`. -/
def specFinalCredits (carbon_footprint energy_consumption waste_reduction_pct
    renewable_pct : ℚ) (category : String) : ℚ :=
  (specCarbonCredits carbon_footprint + specEnergyBonus energy_consumption renewable_pct
      + specWasteBonus waste_reduction_pct)
    * specMultiplier category

/-- Claim formula `impact_score = min((final_credits / 2) * 10, 100)`. -/
def specImpactScore (carbon_footprint energy_consumption waste_reduction_pct
    renewable_pct : ℚ) (category : String) : ℚ :=
  min ((specFinalCredits carbon_footprint energy_consumption waste_reduction_pct
      renewable_pct category / 2) * 10) 100

/-! ## SHA-256 over byte lists

A complete implementation of SHA-256, used to embed the content-store
fallback in `uploads.upload_file` (`hashlib.sha256(file_content).hexdigest()`).
Machine words are `Nat` reduced mod `2^32`. -/

namespace Sha256

/-- Reduce to a 32-bit word. -/
def w32 (x : Nat) : Nat := x % 4294967296

/-- Rotate a 32-bit word right by `n` bits. -/
def rotr (n x : Nat) : Nat := w32 ((x >>> n) ||| (x <<< (32 - n)))

/-- Small sigma 0: `rotr 7 ^ rotr 18 ^ shr 3`. -/
def sig0 (x : Nat) : Nat := (rotr 7 x) ^^^ (rotr 18 x) ^^^ (x >>> 3)

/-- Small sigma 1: `rotr 17 ^ rotr 19 ^ shr 10`. -/
def sig1 (x : Nat) : Nat := (rotr 17 x) ^^^ (rotr 19 x) ^^^ (x >>> 10)

/-- Big sigma 0: `rotr 2 ^ rotr 13 ^ rotr 22`. -/
def bsig0 (x : Nat) : Nat := (rotr 2 x) ^^^ (rotr 13 x) ^^^ (rotr 22 x)

/-- Big sigma 1: `rotr 6 ^ rotr 11 ^ rotr 25`. -/
def bsig1 (x : Nat) : Nat := (rotr 6 x) ^^^ (rotr 11 x) ^^^ (rotr 25 x)

/-- Choice function: `(x & y) ^ (~x & z)` within 32 bits. -/
def ch (x y z : Nat) : Nat := (x &&& y) ^^^ ((x ^^^ 4294967295) &&& z)

/-- Majority function. -/
def maj (x y z : Nat) : Nat := (x &&& y) ^^^ (x &&& z) ^^^ (y &&& z)

/-- The 64 SHA-256 round constants, in decimal. -/
def K : List Nat :=
  [1116352408, 1899447441, 3049323471, 3921009573, 961987163,
   1508970993, 2453635748, 2870763221, 3624381080, 310598401,
   607225278, 1426881987, 1925078388, 2162078206, 2614888103,
   3248222580, 3835390401, 4022224774, 264347078, 604807628,
   770255983, 1249150122, 1555081692, 1996064986, 2554220882,
   2821834349, 2952996808, 3210313671, 3336571891, 3584528711,
   113926993, 338241895, 666307205, 773529912, 1294757372,
   1396182291, 1695183700, 1986661051, 2177026350, 2456956037,
   2730485921, 2820302411, 3259730800, 3345764771, 3516065817,
   3600352804, 4094571909, 275423344, 430227734, 506948616,
   659060556, 883997877, 958139571, 1322822218, 1537002063,
   1747873779, 1955562222, 2024104815, 2227730452, 2361852424,
   2428436474, 2756734187, 3204031479, 3329325298]

/-- The eight initial hash words, in decimal. -/
def H0 : List Nat :=
  [1779033703, 3144134277, 1013904242, 2773480762,
   1359893119, 2600822924, 528734635, 1541459225]

/-- Big-endian 8-byte encoding of a length. -/
def be64 (n : Nat) : List Nat :=
  [(n >>> 56) &&& 255, (n >>> 48) &&& 255, (n >>> 40) &&& 255, (n >>> 32) &&& 255,
   (n >>> 24) &&& 255, (n >>> 16) &&& 255, (n >>> 8) &&& 255, n &&& 255]

/-- SHA-256 padding: append `0x80`, zero bytes to reach 56 mod 64, then the
64-bit big-endian bit length. -/
def padMessage (msg : List Nat) : List Nat :=
  let padZeros : Nat := (55 + 64 - msg.length % 64) % 64
  msg ++ [0x80] ++ List.replicate padZeros 0 ++ be64 (msg.length * 8)

/-- Pack bytes into 32-bit big-endian words. -/
def toWords32 : List Nat → List Nat
  | a :: b :: c :: d :: rest =>
      (((a % 256) <<< 24) ||| ((b % 256) <<< 16) ||| ((c % 256) <<< 8) ||| (d % 256))
        :: toWords32 rest
  | _ => []

/-- One extension step of the message schedule; the head of the list is the
most recent word. -/
def extendStep (rws : List Nat) : List Nat :=
  w32 (sig1 (rws.getD 1 0) + rws.getD 6 0 + sig0 (rws.getD 14 0) + rws.getD 15 0) :: rws

/-- The full 64-word message schedule of one block. -/
def schedule (ws16 : List Nat) : List Nat :=
  ((List.range 48).foldl (fun r _ => extendStep r) ws16.reverse).reverse

/-- The eight working variables of the compression loop. -/
structure Regs where
  a : Nat
  b : Nat
  c : Nat
  d : Nat
  e : Nat
  f : Nat
  g : Nat
  h : Nat

/-- One round of the compression function. -/
def round (st : Regs) (kw : Nat × Nat) : Regs :=
  let t1 := w32 (st.h + bsig1 st.e + ch st.e st.f st.g + kw.1 + kw.2)
  let t2 := w32 (bsig0 st.a + maj st.a st.b st.c)
  ⟨w32 (t1 + t2), st.a, st.b, st.c, w32 (st.d + t1), st.e, st.f, st.g⟩

/-- Compress one 64-byte block into the running hash (eight words). -/
def compressBlock (hs : List Nat) (block : List Nat) : List Nat :=
  let ws := schedule (toWords32 block)
  let st0 : Regs := ⟨hs.getD 0 0, hs.getD 1 0, hs.getD 2 0, hs.getD 3 0,
                     hs.getD 4 0, hs.getD 5 0, hs.getD 6 0, hs.getD 7 0⟩
  let st := (K.zip ws).foldl round st0
  [w32 (st0.a + st.a), w32 (st0.b + st.b), w32 (st0.c + st.c), w32 (st0.d + st.d),
   w32 (st0.e + st.e), w32 (st0.f + st.f), w32 (st0.g + st.g), w32 (st0.h + st.h)]

/-- Split the padded message into 64-byte blocks. -/
def chunks64 : List Nat → List (List Nat)
  | [] => []
  | x :: xs => (x :: xs).take 64 :: chunks64 ((x :: xs).drop 64)
termination_by l => l.length
decreasing_by
  simp only [List.length_drop, List.length_cons]
  omega

/-- The eight 32-bit words of the SHA-256 digest of a byte list. -/
def sha256words (msg : List Nat) : List Nat :=
  (chunks64 (padMessage msg)).foldl compressBlock H0

/-- Lower-case hex digit. -/
def hexDigit (n : Nat) : Char :=
  if n < 10 then Char.ofNat (48 + n) else Char.ofNat (87 + n)

/-- Eight lower-case hex digits of a 32-bit word, most significant first. -/
def hex8 (w : Nat) : List Char :=
  (List.range 8).map (fun i => hexDigit ((w >>> (4 * (7 - i))) &&& 15))

/-- `hashlib.sha256(msg).hexdigest()`: the 64-character lower-case hex digest. -/
def sha256hex (msg : List Nat) : String :=
  String.mk ((sha256words msg).foldr (fun w acc => hex8 w ++ acc) [])

end Sha256

/-! ## Content-store fallback — `uploads.upload_file`, lines 281-292

On any exception from the Lighthouse (IPFS) upload call, the pipeline
derives a demo CID from the SHA-256 of the file content and proceeds
with `status = "completed"`. -/

/-- Result of a successful content-store upload (`ipfs_result`). -/
structure IpfsUploadResult where
  cid : String
  gateway_url : String
  deriving DecidableEq

/-- The fields `upload_sessions[upload_id].update({...})` writes after the
storage step (both on success and in the fallback branch). -/
structure StorePatch where
  status : String
  cid : String
  gateway_url : String
  completed_at : String
  deriving DecidableEq

/-- Line `demo_cid = f"Qm{content_hash[:44]}"` with
`content_hash = hashlib.sha256(file_content).hexdigest()`. -/
def demo_cid (file_content : List Nat) : String :=
  "Qm" ++ (Sha256.sha256hex file_content).take 44

/-- The storage step of `upload_file`: on success use the IPFS result, on any
exception fall back to the deterministic demo CID and the synthesized
`https://ipfs.io/ipfs/` gateway URL; either way mark the session completed.
`now` stands for `datetime.utcnow().isoformat()`. -/
def applyStoreResult (result : Except String IpfsUploadResult)
    (file_content : List Nat) (now : String) : StorePatch :=
  match result with
  | Except.ok r =>
      { status := "completed", cid := r.cid, gateway_url := r.gateway_url,
        completed_at := now }
  | Except.error _ =>
      { status := "completed", cid := demo_cid file_content,
        gateway_url := "https://ipfs.io/ipfs/" ++ demo_cid file_content,
        completed_at := now }

/-! ## Session store — `uploads.save_upload_sessions` / `load_upload_sessions`

The store is a single JSON document on disk.  Documents are modelled at the
parsed level (the `json` module's `dump`/`load` pair is the identity on
JSON-representable documents); the filesystem state tracks the main file
`data/uploads.json` and the temporary file of an in-flight save.  Each
`SaveStep` is one filesystem-visible operation of `save_upload_sessions`. -/

/-- A JSON value, the unit of what `json.dump`/`json.load` move to and
from disk. -/
inductive Json
  | null
  | bool (b : Bool)
  | num (q : ℚ)
  | str (s : String)
  | arr (elems : List Json)
  | obj (fields : List (String × Json))

/-- The session document type: the full upload-session map, keyed by
`upload_id`. -/
abbrev SessionDoc : Type := List (String × Json)

/-- Filesystem state relevant to the store: contents of the main document
and of the in-flight temporary file (`none` = file absent). -/
structure StoreFs (α : Type) where
  main : Option α
  temp : Option α

/-- The filesystem-visible operations of `save_upload_sessions`, in source
order: `json.dump(upload_sessions, temp_file)`, then
`os.remove(UPLOADS_FILE)` (only if the main file exists), then
`os.rename(temp_file.name, UPLOADS_FILE)`. -/
inductive SaveStep
  | writeTemp
  | removeMain
  | renameTempToMain
  deriving DecidableEq

/-- Effect of one save step on the filesystem, writing document `M`. -/
def applyStep (M : α) (fs : StoreFs α) : SaveStep → StoreFs α
  | SaveStep.writeTemp => { fs with temp := some M }
  | SaveStep.removeMain => { fs with main := none }
  | SaveStep.renameTempToMain => { main := fs.temp, temp := none }

/-- The step sequence `save_upload_sessions` performs from filesystem state
`fs`: the `os.remove` is guarded by `os.path.exists(UPLOADS_FILE)`. -/
def saveSteps (fs : StoreFs α) : List SaveStep :=
  [SaveStep.writeTemp]
    ++ (if fs.main.isSome then [SaveStep.removeMain] else [])
    ++ [SaveStep.renameTempToMain]

/-- Run a prefix (or all) of the save steps.  A crash after `k` steps leaves
the filesystem at `runSteps M fs ((saveSteps fs).take k)`. -/
def runSteps (M : α) (fs : StoreFs α) (steps : List SaveStep) : StoreFs α :=
  steps.foldl (applyStep M) fs

/-- A complete, crash-free run of `save_upload_sessions` writing the session
map `M`. -/
def save_upload_sessions (M : α) (fs : StoreFs α) : StoreFs α :=
  runSteps M fs (saveSteps fs)

/-- `load_upload_sessions`: read and parse the main document, returning the
empty map `{}` when the file is absent (the corrupted-file fallback also
returns `{}`; corruption cannot arise in this parsed-document model). -/
def load_upload_sessions (empty : α) (fs : StoreFs α) : α :=
  fs.main.getD empty

/-! ## `GET /upload/{id}/cid` — `uploads.get_upload_cid`

Sessions reaching this endpoint get `cid`, `gateway_url` and `completed_at`
written by one and the same `.update({...})` call, so the three fields are
bundled into one optional component. -/

/-- The completion fields written together by the storage step. -/
structure IpfsInfo where
  cid : String
  gateway_url : String
  completed_at : String
  deriving DecidableEq

/-- An upload session as the endpoint reads it. -/
structure UploadSession where
  filename : String
  upload_type : String
  user_wallet : String
  status : String
  ipfs : Option IpfsInfo
  deriving DecidableEq

/-- `upload_id in upload_sessions` / `upload_sessions[upload_id]` over the
session map. -/
def lookupSession (sessions : List (String × UploadSession))
    (upload_id : String) : Option UploadSession :=
  (sessions.find? (fun p => p.1 == upload_id)).map (fun p => p.2)

/-- The response of `get_upload_cid`, one constructor per exit path. -/
inductive CidResponse
  | notFound
  | stillProcessing
  | cidMissing
  | ok (upload_id cid gateway_url filename upload_type completed_at : String)
  deriving DecidableEq

/-- `uploads.get_upload_cid`: 404 on unknown id, 202 while not completed,
500 when completed without a cid, otherwise the 200 payload. -/
def get_upload_cid (sessions : List (String × UploadSession))
    (upload_id : String) : CidResponse :=
  match lookupSession sessions upload_id with
  | none => CidResponse.notFound
  | some u =>
      if u.status ≠ "completed" then CidResponse.stillProcessing
      else
        match u.ipfs with
        | none => CidResponse.cidMissing
        | some info =>
            CidResponse.ok upload_id info.cid info.gateway_url
              u.filename u.upload_type info.completed_at

/-- HTTP status code of each `get_upload_cid` exit path. -/
def statusCode : CidResponse → Nat
  | CidResponse.notFound => 404
  | CidResponse.stillProcessing => 202
  | CidResponse.cidMissing => 500
  | CidResponse.ok _ _ _ _ _ _ => 200

/-- Status code the claim prescribes, written from the claim's words:
404 when the id is not in the store, 202 when the session exists with
status other than completed, 500 when completed without a cid, 200 when
completed with a cid. -/
def cidStatusSpec (sessions : List (String × UploadSession))
    (upload_id : String) : Nat :=
  match lookupSession sessions upload_id with
  | none => 404
  | some u =>
      if u.status = "completed" then
        (match u.ipfs with | none => 500 | some _ => 200)
      else 202

/-! ## Mint orchestrator — `minting_agent.handle_minting_request`

The ledger adapter (`Web3Service`) is external: it is modelled as three
functions that either return a receipt or raise (the error text of the
exception).  The handler is embedded on already-parsed requests (the
`json.JSONDecodeError` path is not modelled); each `.get` default of the
Python dict access appears as an `Option.getD`.  Besides the response, the
embedding returns the list of ledger calls issued, to state frame
properties. -/

/-- Receipt of `mint_eco_credit_tokens` (`'gas_used'` is read with a
`.get(..., 0)` default, hence optional). -/
structure TokenReceipt where
  tx_hash : String
  block_number : Nat
  gas_used : Option Nat
  deriving DecidableEq

/-- Receipt of `mint_sustainability_proof_nft`. -/
structure NftReceipt where
  tx_hash : String
  token_id : Nat
  block_number : Nat
  gas_used : Option Nat
  deriving DecidableEq

/-- Receipt of `register_sustainability_proof`. -/
structure RegistryReceipt where
  tx_hash : String
  block_number : Nat
  deriving DecidableEq

/-- The consumed ledger-adapter contract: three independent operations,
each either returning a receipt or raising with an error message. -/
structure Web3Service where
  mint_eco_credit_tokens : String → ℤ → String → Except String TokenReceipt
  mint_sustainability_proof_nft : String → String → String → ℤ → Except String NftReceipt
  register_sustainability_proof : String → String → String → ℤ → String → Except String RegistryReceipt

/-- The parsed minting request (`minting_data`); every field is read with
`.get`, so each is optional. -/
structure MintingRequest where
  upload_id : Option String
  user_wallet : Option String
  should_mint : Option Bool
  token_amount : Option ℚ
  carbon_footprint : Option ℚ
  impact_score : Option ℚ
  document_type : Option String
  deriving DecidableEq

/-- One per-operation result dict stored in `minting_results`; `none` fields
model keys absent from the Python dict. -/
structure OpRecord where
  success : Bool
  tx_hash : Option String := none
  amount : Option ℚ := none
  amount_wei : Option ℤ := none
  token_id : Option Nat := none
  proof_type : Option String := none
  carbon_amount : Option ℚ := none
  metadata_uri : Option String := none
  proof_id : Option String := none
  block_number : Option Nat := none
  gas_used : Option Nat := none
  error : Option String := none
  retry_recommended : Option Bool := none
  deriving DecidableEq

/-- Does `hay` start with `needle`? -/
def charsStartWith : List Char → List Char → Bool
  | [], _ => true
  | _ :: _, [] => false
  | a :: as, b :: bs => a = b && charsStartWith as bs

/-- Python's `needle in hay` on strings, over char lists: `needle` occurs
contiguously somewhere in `hay`. -/
def charsContain (needle : List Char) : List Char → Bool
  | [] => charsStartWith needle []
  | b :: bs => charsStartWith needle (b :: bs) || charsContain needle bs

/-- ASCII lower-casing of one character (`str.lower()` on the ASCII range,
which covers the three ASCII needles being searched for). -/
def charLower (c : Char) : Char :=
  if 65 ≤ c.toNat ∧ c.toNat ≤ 90 then Char.ofNat (c.toNat + 32) else c

/-- `str.lower()` over the character list of a string. -/
def lowerChars (l : List Char) : List Char := l.map charLower

/-- `retry_recommended` as computed in the two except-branches that set it:
`"gas_price" in str(e).lower() or "timeout" in str(e).lower() or
"underpriced" in str(e).lower()`. -/
def retry_flag_of (e : String) : Bool :=
  charsContain "gas_price".data (lowerChars e.data)
    || charsContain "timeout".data (lowerChars e.data)
    || charsContain "underpriced".data (lowerChars e.data)

/-- `minting_data.get('upload_id', 'unknown')`. -/
def uploadIdOf (req : MintingRequest) : String := req.upload_id.getD "unknown"

/-- `minting_data.get('token_amount', 0)`. -/
def tokenAmountOf (req : MintingRequest) : ℚ := req.token_amount.getD 0

/-- `minting_data.get('document_type', 'sustainability_proof')`. -/
def docTypeOf (req : MintingRequest) : String :=
  req.document_type.getD "sustainability_proof"

/-- `token_amount_wei = int(token_amount * 10**18)`. -/
def tokenWeiOf (req : MintingRequest) : ℤ := pyInt (tokenAmountOf req * 10 ^ 18)

/-- The `reason` string of the token mint. -/
def mintReasonOf (req : MintingRequest) : String :=
  "Sustainability reward for " ++ docTypeOf req

/-- `metadata_uri = f"https://gateway.lighthouse.storage/ipfs/QmMock{upload_id.replace('-', '')[:40]}"`
(computed identically for the NFT mint and the registry entry). -/
def metadataUriOf (req : MintingRequest) : String :=
  "https://gateway.lighthouse.storage/ipfs/QmMock"
    ++ (((uploadIdOf req).replace "-" "").take 40)

/-- `carbon_footprint_safe = max(carbon_footprint, 1.0)` (the registry step
computes the same value as `carbon_impact_kg`). -/
def carbonSafeOf (req : MintingRequest) : ℚ :=
  max (req.carbon_footprint.getD 0) 1

/-- `int(carbon_footprint_safe * 10**18)`, shared by the NFT mint and the
registry entry. -/
def carbonWeiOf (req : MintingRequest) : ℤ := pyInt (carbonSafeOf req * 10 ^ 18)

/-- `proof_id = f"proof_{upload_id}"`. -/
def proofIdOf (req : MintingRequest) : String := "proof_" ++ uploadIdOf req

/-- A call issued against the ledger adapter, with its arguments. -/
inductive LedgerCall
  | mintTokens (to_address : String) (amount : ℤ) (reason : String)
  | mintNft (to_address token_uri proof_type : String) (carbon_amount : ℤ)
  | registerProof (user_address proof_id proof_type : String)
      (carbon_impact : ℤ) (metadata_uri : String)
  deriving DecidableEq

/-- The handler's reply, one constructor per exit path: the no-mint reply
(`minting_completed = False` with a reason), the outer-except error reply,
and the full reply (`minting_completed = True`) carrying the three
per-operation results and `summary.total_success`. -/
inductive MintingResponse
  | noMint (upload_id : Option String) (reason : String)
  | errorResponse (details : String)
  | completed (upload_id user_wallet : String)
      (eco_tokens sustainability_nft proof_registry : OpRecord)
      (total_success : Bool)
  deriving DecidableEq

/-- Step 1 of the orchestrator, `# 1. Mint EcoCredit tokens`: the
`minting_results['eco_tokens']` dict (try-branch on a receipt,
except-branch on an error). -/
def ecoRec (s : Web3Service) (req : MintingRequest) (w : String) : OpRecord :=
  match s.mint_eco_credit_tokens w (tokenWeiOf req) (mintReasonOf req) with
  | Except.ok t =>
      { success := true, tx_hash := some t.tx_hash,
        amount := some (tokenAmountOf req),
        amount_wei := some (tokenWeiOf req),
        block_number := some t.block_number,
        gas_used := some (t.gas_used.getD 0) }
  | Except.error err =>
      { success := false, error := some err,
        retry_recommended := some (retry_flag_of err) }

/-- Step 2, `# 2. Mint SustainabilityProof NFT`: the
`minting_results['sustainability_nft']` dict. -/
def nftRec (s : Web3Service) (req : MintingRequest) (w : String) : OpRecord :=
  match s.mint_sustainability_proof_nft w (metadataUriOf req)
      (docTypeOf req) (carbonWeiOf req) with
  | Except.ok t =>
      { success := true, tx_hash := some t.tx_hash,
        token_id := some t.token_id,
        proof_type := some (docTypeOf req),
        carbon_amount := some (carbonSafeOf req),
        metadata_uri := some (metadataUriOf req),
        block_number := some t.block_number,
        gas_used := some (t.gas_used.getD 0) }
  | Except.error err =>
      { success := false, error := some err,
        retry_recommended := some (retry_flag_of err) }

/-- Step 3, `# 3. Register proof in ProofRegistry`: the
`minting_results['proof_registry']` dict.  Note its except-branch stores
only `success` and `error` — no `retry_recommended` key. -/
def regRec (s : Web3Service) (req : MintingRequest) (w : String) : OpRecord :=
  match s.register_sustainability_proof w (proofIdOf req)
      (docTypeOf req) (carbonWeiOf req) (metadataUriOf req) with
  | Except.ok t =>
      { success := true, tx_hash := some t.tx_hash,
        proof_id := some (proofIdOf req),
        block_number := some t.block_number }
  | Except.error err =>
      { success := false, error := some err }

/-- `minting_agent.handle_minting_request` on a parsed request, returning
the reply together with the ledger calls performed. -/
def handle_minting_request (svc : Except String Web3Service)
    (req : MintingRequest) : MintingResponse × List LedgerCall :=
  if req.should_mint.getD false = false then
    (MintingResponse.noMint req.upload_id
      "Analysis determined no tokens should be minted", [])
  else
    match req.user_wallet with
    | none => (MintingResponse.errorResponse
        "User wallet address is required for minting", [])
    | some w =>
        if w = "" then
          (MintingResponse.errorResponse
            "User wallet address is required for minting", [])
        else if tokenAmountOf req ≤ 0 then
          (MintingResponse.errorResponse
            "Token amount must be greater than 0", [])
        else
          match svc with
          | Except.error e => (MintingResponse.errorResponse e, [])
          | Except.ok s =>
              (MintingResponse.completed (uploadIdOf req) w
                (ecoRec s req w) (nftRec s req w) (regRec s req w)
                ([ecoRec s req w, nftRec s req w, regRec s req w].all OpRecord.success),
               [LedgerCall.mintTokens w (tokenWeiOf req) (mintReasonOf req),
                LedgerCall.mintNft w (metadataUriOf req) (docTypeOf req) (carbonWeiOf req),
                LedgerCall.registerProof w (proofIdOf req) (docTypeOf req)
                  (carbonWeiOf req) (metadataUriOf req)])

/-- Projection: the recorded `eco_tokens` result of a completed reply. -/
def ecoOutcomeOf : MintingResponse → Option OpRecord
  | MintingResponse.completed _ _ e _ _ _ => some e
  | _ => none

/-- Projection: the recorded `sustainability_nft` result of a completed reply. -/
def nftOutcomeOf : MintingResponse → Option OpRecord
  | MintingResponse.completed _ _ _ n _ _ => some n
  | _ => none

/-- Projection: the recorded `proof_registry` result of a completed reply. -/
def regOutcomeOf : MintingResponse → Option OpRecord
  | MintingResponse.completed _ _ _ _ r _ => some r
  | _ => none

/-- Projection: `summary.total_success` of a completed reply. -/
def totalSuccessOf : MintingResponse → Option Bool
  | MintingResponse.completed _ _ _ _ _ t => some t
  | _ => none

/-- `minting_request_data` as built in `uploads.upload_file` from the
reasoner's analysis result: `token_amount` and `should_mint` come from
`calculate_carbon_credits`, `carbon_footprint` is the extracted metric. -/
def mintRequestOf (upload_id user_wallet : String) (cres : CreditResult)
    (carbon_footprint : ℚ) (document_type : String) : MintingRequest :=
  { upload_id := some upload_id, user_wallet := some user_wallet,
    should_mint := some cres.should_mint,
    token_amount := some cres.token_amount,
    carbon_footprint := some carbon_footprint,
    impact_score := some cres.impact_score,
    document_type := some document_type }

/-! ## Concrete fixtures used by witnesses and counterexamples -/

/-- A prior valid session document on disk. -/
def crashOldDoc : SessionDoc :=
  [("11111111-aaaa", Json.obj [("status", Json.str "completed")])]

/-- The updated session map a save is writing when the crash happens. -/
def crashNewDoc : SessionDoc :=
  crashOldDoc ++ [("22222222-bbbb", Json.obj [("status", Json.str "processing")])]

/-- Filesystem holding the prior valid document, no save in flight. -/
def crashFs : StoreFs SessionDoc := { main := some crashOldDoc, temp := none }

/-- A ledger where both mints succeed but the registry call raises a
timeout. -/
def regTimeoutSvc : Web3Service :=
  { mint_eco_credit_tokens := fun _ _ _ =>
      Except.ok { tx_hash := "0xaaa1", block_number := 100, gas_used := some 21000 },
    mint_sustainability_proof_nft := fun _ _ _ _ =>
      Except.ok { tx_hash := "0xbbb2", token_id := 7, block_number := 101, gas_used := some 90000 },
    register_sustainability_proof := fun _ _ _ _ _ =>
      Except.error "timeout while waiting for transaction receipt" }

/-- A ledger where all three operations raise. -/
def allFailSvc : Web3Service :=
  { mint_eco_credit_tokens := fun _ _ _ =>
      Except.error "replacement transaction underpriced",
    mint_sustainability_proof_nft := fun _ _ _ _ =>
      Except.error "execution reverted",
    register_sustainability_proof := fun _ _ _ _ _ =>
      Except.error "connection timeout" }

/-- A ledger where the reward-token mint raises but the NFT mint and the
registry entry succeed. -/
def tokenFailSvc : Web3Service :=
  { mint_eco_credit_tokens := fun _ _ _ =>
      Except.error "transaction underpriced: gas_price too low",
    mint_sustainability_proof_nft := fun _ _ _ _ =>
      Except.ok { tx_hash := "0xcafe", token_id := 12, block_number := 205, gas_used := some 88000 },
    register_sustainability_proof := fun _ _ _ _ _ =>
      Except.ok { tx_hash := "0xd00d", block_number := 206 } }

/-- The NFT receipt `tokenFailSvc` returns. -/
def nftOkReceipt : NftReceipt :=
  { tx_hash := "0xcafe", token_id := 12, block_number := 205, gas_used := some 88000 }

/-- A concrete minting request that passes all the mint gates. -/
def mintReq96 : MintingRequest :=
  { upload_id := some "u-96", user_wallet := some "0xabc",
    should_mint := some true, token_amount := some 96,
    carbon_footprint := some 200, impact_score := some 100,
    document_type := some "carbon_footprint" }

/-- A minting request whose `should_mint` key is absent. -/
def noMintReq : MintingRequest :=
  { upload_id := some "u-10", user_wallet := some "0xabc",
    should_mint := none, token_amount := some 25,
    carbon_footprint := some 150, impact_score := some 80,
    document_type := some "carbon_footprint" }

/-- A completed session with its cid/gateway info. -/
def doneSession : UploadSession :=
  { filename := "report.pdf", upload_type := "certification",
    user_wallet := "0xabc", status := "completed",
    ipfs := some { cid := "QmXYZ", gateway_url := "https://ipfs.io/ipfs/QmXYZ",
                   completed_at := "2025-01-01T00:00:00" } }

/-- A session map holding `doneSession` under a known id. -/
def doneSessions : List (String × UploadSession) := [("id-1", doneSession)]

/-! ## Theorems -/

/-- C5: saving any session map with the session store and loading it back
yields the same map, from any initial filesystem state:
`load(save(M)) == M`. -/
theorem session_store_roundtrip (M : SessionDoc) (fs : StoreFs SessionDoc) :
    load_upload_sessions [] (save_upload_sessions M fs) = M := by
  cases fs with
  | mk main temp => cases main <;> rfl

/-- C1 (code bug): `save_upload_sessions` removes the main document
*between* writing the temporary file and the rename (the Windows-compatible
`os.remove` before `os.rename`).  Killing the process right after step 2 of
the three-step save leaves the store with no main document at all, so the
prior valid document is not left unchanged — contrary to the claim and to
the function's own "atomic write" docstring. -/
theorem save_crash_after_remove_loses_main :
    crashFs.main = some crashOldDoc ∧
    saveSteps crashFs =
      [SaveStep.writeTemp, SaveStep.removeMain, SaveStep.renameTempToMain] ∧
    (runSteps crashNewDoc crashFs ((saveSteps crashFs).take 2)).main = none :=
  ⟨rfl, rfl, rfl⟩

/-- C7: when the content-store call fails, for any error whatsoever, the
pipeline still produces a completed session whose cid is the deterministic
content-hash address `"Qm" ++ sha256(file_content)[:44]` and whose gateway
URL is synthesized from it; the result does not depend on which error
occurred, only on the file bytes. -/
theorem storage_fallback_deterministic (err err2 : String)
    (file_content : List Nat) (now : String) :
    applyStoreResult (Except.error err) file_content now =
      { status := "completed", cid := demo_cid file_content,
        gateway_url := "https://ipfs.io/ipfs/" ++ demo_cid file_content,
        completed_at := now } ∧
    applyStoreResult (Except.error err) file_content now =
      applyStoreResult (Except.error err2) file_content now ∧
    demo_cid file_content = "Qm" ++ (Sha256.sha256hex file_content).take 44 :=
  ⟨rfl, rfl, rfl⟩

/-- C10: a request whose `should_mint` field is false or absent makes the
handler reply immediately with the no-mint response (an explanatory reason,
`minting_completed = False`) and perform no ledger call at all. -/
theorem no_mint_request_no_ledger_calls (svc : Except String Web3Service)
    (req : MintingRequest) (h : req.should_mint.getD false = false) :
    handle_minting_request svc req =
      (MintingResponse.noMint req.upload_id
        "Analysis determined no tokens should be minted", []) := by
  unfold handle_minting_request
  rw [if_pos h]

/-- Witness for C10 at a concrete request with an absent `should_mint`. -/
theorem no_mint_request_no_ledger_calls_witness :
    noMintReq.should_mint.getD false = false ∧
    handle_minting_request (Except.error "Web3Service not initialized") noMintReq =
      (MintingResponse.noMint (some "u-10")
        "Analysis determined no tokens should be minted", []) :=
  ⟨rfl, no_mint_request_no_ledger_calls _ noMintReq rfl⟩

/-- C4: the scoring engine's `should_mint` flag is true exactly when the
computed `final_credits` reaches the threshold 10, for all inputs. -/
theorem should_mint_iff_threshold (cf e w r : ℚ) (dt : String) :
    (calculate_carbon_credits cf e w r dt).should_mint = true ↔
      10 ≤ final_credits cf e w r dt := by
  simp [calculate_carbon_credits]

/-- C3 counterexample: at the real input `carbon_footprint = -10` (others
zero) the engine's `final_credits` is 0 — the `if carbon_footprint > 0`
guard skips the carbon term — while the claim's unguarded formulas give
`min(-10 * 0.1, 100) = -1`.  The claim's equations do not hold for every
real input. -/
theorem scoring_formula_fails_on_negative_input :
    final_credits (-10) 0 0 0 "sustainability_document" = 0 ∧
    specFinalCredits (-10) 0 0 0 "sustainability_document" = -1 := by
  constructor
  · norm_num [final_credits, base_credits, carbonCreditsTerm, energyBonusTerm,
      wasteBonusTerm, type_multiplier, min_def]
  · norm_num [specFinalCredits, specCarbonCredits, specEnergyBonus,
      specWasteBonus, specMultiplier, min_def]

/-- C3 as amended: for all inputs with nonnegative `carbon_footprint` and
`waste_reduction_pct`, every value the engine computes coincides with the
claim's formula — carbon credits, energy bonus, waste bonus, the
category multiplier (including the 1.0 default), `final_credits`, and the
`impact_score` value computed before the one-decimal output rounding. -/
theorem scoring_formulas_nonneg (cf e w r : ℚ) (dt : String)
    (hcf : 0 ≤ cf) (hwr : 0 ≤ w) :
    carbonCreditsTerm cf = specCarbonCredits cf ∧
    energyBonusTerm e r = specEnergyBonus e r ∧
    wasteBonusTerm w = specWasteBonus w ∧
    type_multiplier dt = specMultiplier dt ∧
    final_credits cf e w r dt = specFinalCredits cf e w r dt ∧
    impact_score_raw cf e w r dt = specImpactScore cf e w r dt := by
  have h1 : carbonCreditsTerm cf = specCarbonCredits cf := by
    unfold carbonCreditsTerm specCarbonCredits
    rcases eq_or_lt_of_le hcf with h | h
    · rw [if_neg (by rw [← h]; exact lt_irrefl 0), ← h, zero_mul,
        min_eq_left (by norm_num)]
    · rw [if_pos h]
  have h3 : wasteBonusTerm w = specWasteBonus w := by
    unfold wasteBonusTerm specWasteBonus
    rcases eq_or_lt_of_le hwr with h | h
    · rw [if_neg (by rw [← h]; exact lt_irrefl 0), ← h, zero_mul,
        min_eq_left (by norm_num)]
    · rw [if_pos h]
  have h5 : final_credits cf e w r dt = specFinalCredits cf e w r dt := by
    unfold final_credits base_credits specFinalCredits
    rw [h1, h3]
    rfl
  have h6 : impact_score_raw cf e w r dt = specImpactScore cf e w r dt := by
    unfold impact_score_raw specImpactScore
    rw [h5]
  exact ⟨h1, rfl, h3, rfl, h5, h6⟩

/-- Witness for amended C3 at the spec's Example A inputs. -/
theorem scoring_formulas_nonneg_witness :
    (0 : ℚ) ≤ 200 ∧ (0 : ℚ) ≤ 20 ∧
    final_credits 200 3000 20 90 "carbon_footprint" =
      specFinalCredits 200 3000 20 90 "carbon_footprint" :=
  ⟨by norm_num, by norm_num,
    (scoring_formulas_nonneg 200 3000 20 90 "carbon_footprint"
      (by norm_num) (by norm_num)).2.2.2.2.1⟩

/-- Sanity: the spec's Example A — `final_credits = 96`, capped impact
score 100, mint decision true. -/
theorem scoring_example_a :
    final_credits 200 3000 20 90 "carbon_footprint" = 96 ∧
    impact_score_raw 200 3000 20 90 "carbon_footprint" = 100 ∧
    (calculate_carbon_credits 200 3000 20 90 "carbon_footprint").should_mint = true := by
  have hne : ¬ "carbon_footprint" = "sustainability_document" := by decide
  have hf : final_credits 200 3000 20 90 "carbon_footprint" = 96 := by
    norm_num [final_credits, base_credits, carbonCreditsTerm, energyBonusTerm,
      wasteBonusTerm, type_multiplier, min_def, hne]
  refine ⟨hf, ?_, ?_⟩
  · norm_num [impact_score_raw, hf, min_def]
  · simp only [calculate_carbon_credits, hf, decide_eq_true_eq]
    norm_num

/-- Sanity: the spec's Example B — all metrics zero gives zero credits and
no mint. -/
theorem scoring_example_b :
    final_credits 0 0 0 0 "sustainability_document" = 0 ∧
    impact_score_raw 0 0 0 0 "sustainability_document" = 0 ∧
    (calculate_carbon_credits 0 0 0 0 "sustainability_document").should_mint = false := by
  have hf : final_credits 0 0 0 0 "sustainability_document" = 0 := by
    norm_num [final_credits, base_credits, carbonCreditsTerm, energyBonusTerm,
      wasteBonusTerm, type_multiplier, min_def]
  refine ⟨hf, ?_, ?_⟩
  · norm_num [impact_score_raw, hf, min_def]
  · simp only [calculate_carbon_credits, hf, decide_eq_false_iff_not]
    norm_num

/-- C8: for every session map and upload id, the cid endpoint's status code
is 404 for an unknown id, 202 while the session is not completed, 500 when
completed without a cid, and 200 when completed with a cid — and in the 200
case the payload carries the stored cid and gateway info. -/
theorem cid_endpoint_codes (sessions : List (String × UploadSession))
    (uid : String) :
    statusCode (get_upload_cid sessions uid) = cidStatusSpec sessions uid ∧
    (∀ u info, lookupSession sessions uid = some u → u.status = "completed" →
      u.ipfs = some info →
      get_upload_cid sessions uid =
        CidResponse.ok uid info.cid info.gateway_url
          u.filename u.upload_type info.completed_at) := by
  constructor
  · unfold get_upload_cid cidStatusSpec
    cases h : lookupSession sessions uid with
    | none => rfl
    | some u =>
        by_cases hs : u.status = "completed"
        · cases hi : u.ipfs <;> simp [hs, hi, statusCode]
        · simp [hs, statusCode]
  · intro u info hu hs hi
    unfold get_upload_cid
    rw [hu]
    simp [hs, hi]

/-- Witness for C8 at a concrete completed session with a cid. -/
theorem cid_endpoint_codes_witness :
    lookupSession doneSessions "id-1" = some doneSession ∧
    doneSession.status = "completed" ∧
    doneSession.ipfs =
      some (IpfsInfo.mk "QmXYZ" "https://ipfs.io/ipfs/QmXYZ" "2025-01-01T00:00:00") ∧
    get_upload_cid doneSessions "id-1" =
      CidResponse.ok "id-1" "QmXYZ" "https://ipfs.io/ipfs/QmXYZ"
        "report.pdf" "certification" "2025-01-01T00:00:00" :=
  ⟨rfl, rfl, rfl,
    (cid_endpoint_codes doneSessions "id-1").2 doneSession
      (IpfsInfo.mk "QmXYZ" "https://ipfs.io/ipfs/QmXYZ" "2025-01-01T00:00:00")
      rfl rfl rfl⟩

/-- Helper: on a request that passes the `should_mint`, wallet and amount
gates, the handler with an available ledger reaches the completed reply and
issues exactly the three ledger calls, whatever their outcomes. -/
theorem handler_completed_eq (s : Web3Service) (req : MintingRequest)
    (w : String) (hsm : req.should_mint = some true)
    (huw : req.user_wallet = some w) (hw : ¬ w = "")
    (hta : 0 < tokenAmountOf req) :
    handle_minting_request (Except.ok s) req =
      (MintingResponse.completed (uploadIdOf req) w
        (ecoRec s req w) (nftRec s req w) (regRec s req w)
        ([ecoRec s req w, nftRec s req w, regRec s req w].all OpRecord.success),
       [LedgerCall.mintTokens w (tokenWeiOf req) (mintReasonOf req),
        LedgerCall.mintNft w (metadataUriOf req) (docTypeOf req) (carbonWeiOf req),
        LedgerCall.registerProof w (proofIdOf req) (docTypeOf req)
          (carbonWeiOf req) (metadataUriOf req)]) := by
  have h1 : ¬ (tokenAmountOf req ≤ 0) := not_le.mpr hta
  simp only [handle_minting_request, hsm, huw, Option.getD_some, h1, hw]
  simp

/-- C2 as amended: on an exception from the reward-token or certificate-NFT
ledger call, the recorded outcome has `success = false` and
`retry_recommended` set exactly to the substring test on the lower-cased
error text; on an exception from the proof-registry call the recorded
outcome has `success = false` and the error text but *no*
`retry_recommended` field at all. -/
theorem mint_failure_outcomes (s : Web3Service) (req : MintingRequest)
    (w : String) (hsm : req.should_mint = some true)
    (huw : req.user_wallet = some w) (hw : ¬ w = "")
    (hta : 0 < tokenAmountOf req) :
    (∀ msg, s.mint_eco_credit_tokens w (tokenWeiOf req) (mintReasonOf req) =
        Except.error msg →
      ecoOutcomeOf (handle_minting_request (Except.ok s) req).1 =
        some { success := false, error := some msg,
               retry_recommended := some (retry_flag_of msg) }) ∧
    (∀ msg, s.mint_sustainability_proof_nft w (metadataUriOf req)
        (docTypeOf req) (carbonWeiOf req) = Except.error msg →
      nftOutcomeOf (handle_minting_request (Except.ok s) req).1 =
        some { success := false, error := some msg,
               retry_recommended := some (retry_flag_of msg) }) ∧
    (∀ msg, s.register_sustainability_proof w (proofIdOf req) (docTypeOf req)
        (carbonWeiOf req) (metadataUriOf req) = Except.error msg →
      regOutcomeOf (handle_minting_request (Except.ok s) req).1 =
        some { success := false, error := some msg }) := by
  rw [handler_completed_eq s req w hsm huw hw hta]
  refine ⟨fun msg h => ?_, fun msg h => ?_, fun msg h => ?_⟩
  · simp only [ecoOutcomeOf]
    unfold ecoRec
    rw [h]
  · simp only [nftOutcomeOf]
    unfold nftRec
    rw [h]
  · simp only [regOutcomeOf]
    unfold regRec
    rw [h]

/-- Witness for amended C2: with all three ledger calls failing, the
reward-token outcome records the substring-based retry flag (true for an
"underpriced" error). -/
theorem mint_failure_outcomes_witness :
    mintReq96.should_mint = some true ∧
    mintReq96.user_wallet = some "0xabc" ∧
    ¬ "0xabc" = "" ∧ 0 < tokenAmountOf mintReq96 ∧
    ecoOutcomeOf (handle_minting_request (Except.ok allFailSvc) mintReq96).1 =
      some { success := false,
             error := some "replacement transaction underpriced",
             retry_recommended := some true } := by
  refine ⟨rfl, rfl, by decide, by norm_num [tokenAmountOf, mintReq96], ?_⟩
  have h := (mint_failure_outcomes allFailSvc mintReq96 "0xabc" rfl rfl
      (by decide) (by norm_num [tokenAmountOf, mintReq96])).1
    "replacement transaction underpriced" rfl
  rw [h]
  have hrf : retry_flag_of "replacement transaction underpriced" = true := by decide
  rw [hrf]

/-- C2 counterexample: the proof-registry ledger call raises an error whose
lower-cased text contains "timeout", yet the recorded proof-registry
outcome carries no `retry_recommended` field (`none`), not
`retry_recommended = true` as the claim requires for all three
operations. -/
theorem registry_timeout_not_flagged :
    retry_flag_of "timeout while waiting for transaction receipt" = true ∧
    (regOutcomeOf (handle_minting_request (Except.ok regTimeoutSvc) mintReq96).1).map
        OpRecord.retry_recommended = some none := by
  constructor
  · decide
  · rw [handler_completed_eq regTimeoutSvc mintReq96 "0xabc" rfl rfl
      (by decide) (by norm_num [tokenAmountOf, mintReq96])]
    simp only [regOutcomeOf, regRec]
    rfl

/-- C6: under the mint gates, the orchestrator issues all three ledger
calls regardless of outcomes; if the reward-token mint raises while the
NFT mint returns a receipt, the recorded NFT outcome still has
`success = true` with the receipt's `tx_hash`; and `summary.total_success`
is the conjunction of the three per-operation `success` flags. -/
theorem mint_operation_independence (s : Web3Service) (req : MintingRequest)
    (w : String) (hsm : req.should_mint = some true)
    (huw : req.user_wallet = some w) (hw : ¬ w = "")
    (hta : 0 < tokenAmountOf req) :
    (handle_minting_request (Except.ok s) req).2 =
      [LedgerCall.mintTokens w (tokenWeiOf req) (mintReasonOf req),
       LedgerCall.mintNft w (metadataUriOf req) (docTypeOf req) (carbonWeiOf req),
       LedgerCall.registerProof w (proofIdOf req) (docTypeOf req)
         (carbonWeiOf req) (metadataUriOf req)] ∧
    (∀ msg t, s.mint_eco_credit_tokens w (tokenWeiOf req) (mintReasonOf req) =
        Except.error msg →
      s.mint_sustainability_proof_nft w (metadataUriOf req) (docTypeOf req)
        (carbonWeiOf req) = Except.ok t →
      nftOutcomeOf (handle_minting_request (Except.ok s) req).1 =
        some { success := true, tx_hash := some t.tx_hash,
               token_id := some t.token_id,
               proof_type := some (docTypeOf req),
               carbon_amount := some (carbonSafeOf req),
               metadata_uri := some (metadataUriOf req),
               block_number := some t.block_number,
               gas_used := some (t.gas_used.getD 0) }) ∧
    totalSuccessOf (handle_minting_request (Except.ok s) req).1 =
      some ((ecoRec s req w).success &&
        ((nftRec s req w).success && (regRec s req w).success)) := by
  rw [handler_completed_eq s req w hsm huw hw hta]
  refine ⟨rfl, fun msg t _ hNft => ?_, ?_⟩
  · simp only [nftOutcomeOf]
    unfold nftRec
    rw [hNft]
  · simp [totalSuccessOf, List.all]

/-- Witness for C6: the token mint fails with a gas-price error while the
NFT mint and registry succeed; the NFT outcome keeps its receipt data. -/
theorem mint_operation_independence_witness :
    mintReq96.should_mint = some true ∧
    mintReq96.user_wallet = some "0xabc" ∧
    ¬ "0xabc" = "" ∧ 0 < tokenAmountOf mintReq96 ∧
    tokenFailSvc.mint_eco_credit_tokens "0xabc" (tokenWeiOf mintReq96)
      (mintReasonOf mintReq96) =
        Except.error "transaction underpriced: gas_price too low" ∧
    nftOutcomeOf (handle_minting_request (Except.ok tokenFailSvc) mintReq96).1 =
      some { success := true, tx_hash := some nftOkReceipt.tx_hash,
             token_id := some nftOkReceipt.token_id,
             proof_type := some (docTypeOf mintReq96),
             carbon_amount := some (carbonSafeOf mintReq96),
             metadata_uri := some (metadataUriOf mintReq96),
             block_number := some nftOkReceipt.block_number,
             gas_used := some (nftOkReceipt.gas_used.getD 0) } := by
  refine ⟨rfl, rfl, by decide, by norm_num [tokenAmountOf, mintReq96], rfl, ?_⟩
  exact (mint_operation_independence tokenFailSvc mintReq96 "0xabc" rfl rfl
      (by decide) (by norm_num [tokenAmountOf, mintReq96])).2.1
    "transaction underpriced: gas_price too low" nftOkReceipt rfl rfl

/-- Helper: truncation is the identity on integer rationals. -/
theorem pyInt_intCast (k : ℤ) : pyInt (k : ℚ) = k := by
  unfold pyInt
  split <;> simp

/-- Helper: scaling a 2-decimal rounding by `10^18` and truncating equals
the rounded numerator times `10^16`. -/
theorem pyInt_pyRound2_mul_pow18 (f : ℚ) :
    pyInt (pyRound f 2 * 10 ^ 18) = roundHalfEven (f * 100) * 10 ^ 16 := by
  have h : pyRound f 2 * 10 ^ 18 = ((roundHalfEven (f * 100) * 10 ^ 16 : ℤ) : ℚ) := by
    unfold pyRound
    push_cast
    ring_nf
  rw [h, pyInt_intCast]

/-- C9 as amended: the wei amount the minting agent computes for a request
built from the scoring engine's output is `final_credits` *rounded to two
decimals* (the reasoner's `token_amount = round(final_credits, 2)`) scaled
by `10^18`, i.e. `roundHalfEven(final_credits * 100) * 10^16`. -/
theorem token_wei_amended (uid uw : String) (cf e w r : ℚ) (dt : String)
    (cfm : ℚ) :
    tokenWeiOf (mintRequestOf uid uw
        (calculate_carbon_credits cf e w r dt) cfm dt) =
      roundHalfEven (final_credits cf e w r dt * 100) * 10 ^ 16 := by
  simp only [tokenWeiOf, tokenAmountOf, mintRequestOf, Option.getD_some,
    calculate_carbon_credits]
  exact pyInt_pyRound2_mul_pow18 _

/-- C9 counterexample: with `carbon_footprint = 100.13` (others zero,
default category) the engine's `final_credits` is `10.013` and the mint
decision is positive, but the minting agent computes
`int(round(10.013, 2) * 10^18) = 10.01 * 10^18`, not
`10.013 * 10^18` as the claim states. -/
theorem token_wei_cex :
    (calculate_carbon_credits (10013/100) 0 0 0 "sustainability_document").should_mint
      = true ∧
    ((tokenWeiOf (mintRequestOf "u-9" "0xdef"
        (calculate_carbon_credits (10013/100) 0 0 0 "sustainability_document")
        (10013/100) "sustainability_document") : ℤ) : ℚ) ≠
      final_credits (10013/100) 0 0 0 "sustainability_document" * 10 ^ 18 := by
  have hf : final_credits (10013/100) 0 0 0 "sustainability_document" = 10013/1000 := by
    norm_num [final_credits, base_credits, carbonCreditsTerm, energyBonusTerm,
      wasteBonusTerm, type_multiplier, min_def]
  have hfloor : ⌊(10013/10 : ℚ)⌋ = 1001 := by
    rw [Int.floor_eq_iff]
    norm_num
  have hround : roundHalfEven (10013/1000 * 100) = 1001 := by
    have : (10013/1000 * 100 : ℚ) = 10013/10 := by norm_num
    rw [this]
    simp only [roundHalfEven, hfloor]
    norm_num
  constructor
  · simp only [calculate_carbon_credits, hf, decide_eq_true_eq]
    norm_num
  · have hwei : tokenWeiOf (mintRequestOf "u-9" "0xdef"
        (calculate_carbon_credits (10013/100) 0 0 0 "sustainability_document")
        (10013/100) "sustainability_document") = 1001 * 10 ^ 16 := by
      simp only [tokenWeiOf, tokenAmountOf, mintRequestOf, Option.getD_some,
        calculate_carbon_credits]
      rw [pyInt_pyRound2_mul_pow18, hf, hround]
    rw [hwei, hf]
    push_cast
    norm_num

end EcoChain
